import Mathlib

/-!
Shallow embedding of the async-hid device layer (webhid backend under
`src/src/backend/webhid/`, shared types under `src/src/lib.rs`, and the
android backend under `src/src/backend/android/`), together with theorems
settling the frozen claims about it.

Machine integers (`u8`, `u16`, `usize`) are modelled as `Nat`; none of the
embedded operations can overflow them on the inputs the code accepts, so no
explicit modulus is required. Fallible Rust code returning `HidResult` is
embedded as functions into an `Outcome` type that also records the panic
possibility (`todo!()`, JavaScript exceptions trapping the wasm module).
-/

namespace AsyncHid

/-- Modelled from the spec: the shared error type lives in `src/error.rs`,
which is not under `src/`; only its constructors `HidError::zero_sized_data()`
and `HidError::custom(message)` are visible from the backends. Per the spec
error taxonomy, `zeroSizedData` realizes `ZeroSizedBuffer`, and the custom
messages produced by the webhid backend realize `BufferOverflow` and
`ChannelClosed`. -/
inductive HidError where
  | zeroSizedData
  | message (s : String)
deriving DecidableEq

/-- Embeds `HidError::custom` as called by the backends. -/
def HidError.custom (s : String) : HidError := .message s

/-- The error produced at `src/src/backend/webhid/mod.rs:256`; per the taxonomy in the spec: this is the `BufferOverflow` condition. -/
def HidError.bufferOverflow : HidError := HidError.custom "HID input buffer overflow."

/-- The error produced at `src/src/backend/webhid/mod.rs:240`; per the taxonomy in the spec: this is the `ChannelClosed` condition. -/
def HidError.channelClosed : HidError := HidError.custom "Input channel closed."

/-- Result of a Rust call: success, a typed `HidError`, or a panic
(`todo!()`, or a JavaScript exception trapping the wasm module). -/
inductive Outcome (α : Type) where
  | ok (a : α)
  | err (e : HidError)
  | panic
deriving DecidableEq

/-- One entry of a JavaScript `HidDevice.collections()` array
(`web_sys::HidCollectionInfo`): `get_usage_page()` and `get_usage()` return
optional 16-bit values. -/
structure HidCollectionInfo where
  usagePage : Option Nat
  usage : Option Nat
deriving DecidableEq

/-- The observable part of a JavaScript `HidDevice` object:
`product_name()`, `product_id()`, `vendor_id()`, `collections()`, plus a
reference identity `ref` distinguishing distinct JS objects with equal
attributes. -/
structure JsHidDevice where
  ref : Nat
  productName : String
  productId : Nat
  vendorId : Nat
  collections : List HidCollectionInfo
deriving DecidableEq

/-- A JavaScript value as far as the webhid backend inspects one: `null`,
`undefined`, a `HidDevice` object, or some other object. Equality is JS
reference equality, carried by `JsHidDevice.ref` / the `Nat` in `other`. -/
inductive JsValue where
  | null
  | undefined
  | hidDevice (d : JsHidDevice)
  | other (ref : Nat)
deriving DecidableEq

/-- Embeds `utils::to_string` (JavaScript `String(value)`), the basis of
the hash of `HashableJsValue` (`src/src/backend/webhid/hashable_js_value.rs:28-32`).
Distinct `HidDevice` objects stringify identically. -/
def jsToString : JsValue → String
  | .null => "null"
  | .undefined => "undefined"
  | .hidDevice _ => "[object HIDDevice]"
  | .other _ => "[object Object]"

/-- Embeds `utils::is_valid_object` (`src/src/backend/webhid/utils.rs:33-43`). -/
def isValidObject : JsValue → Except HidError Unit
  | .null => .error (HidError.custom "JavaScript object is null.")
  | .undefined => .error (HidError.custom "JavaScript object is undefined.")
  | _ => .ok ()

/-- Embeds `utils::cast::<HidDevice>` (`src/src/backend/webhid/utils.rs:25-30`). -/
def castHidDevice : JsValue → Except HidError JsHidDevice
  | .hidDevice d => .ok d
  | _ => .error (HidError.custom "Failed to cast JavaScript object to type HidDevice.")

/-- Embeds `DeviceInfo` (`src/src/lib.rs:22-43`), wasm variant: name, vendor id,
product id, usage page, usage id, and the platform-opaque identity token
`device_object : HashableJsValue`. -/
structure DeviceInfo where
  name : String
  vendor_id : Nat
  product_id : Nat
  usage_page : Nat
  usage_id : Nat
  device_object : JsValue
deriving DecidableEq

/-- The `#[derive(PartialEq)]` equality of `DeviceInfo`: field-wise, with
`HashableJsValue` comparing its wrapped `JsValue` by JS reference equality. -/
def deviceInfoBeq (a b : DeviceInfo) : Bool :=
  a.name == b.name && a.vendor_id == b.vendor_id && a.product_id == b.product_id
    && a.usage_page == b.usage_page && a.usage_id == b.usage_id
    && a.device_object == b.device_object

/-- A string hash standing for the Rust `Hash for str`; any function works for
the consistency claims, which only need equal inputs to hash equally. -/
def hashString (s : String) : Nat :=
  s.data.foldl (fun h c => (h * 31 + c.toNat) % 2 ^ 64) 5381

/-- Mixing step of the modelled hasher. -/
def hashCombine (h x : Nat) : Nat := (h * 31 + x) % 2 ^ 64

/-- The `#[derive(Hash)]` hash of `DeviceInfo`: each field hashed in
declaration order, `HashableJsValue` hashing `to_string` of its `JsValue`
(`src/src/backend/webhid/hashable_js_value.rs:28-32`). -/
def deviceInfoHash (d : DeviceInfo) : Nat :=
  [hashString d.name, d.vendor_id, d.product_id, d.usage_page, d.usage_id,
    hashString (jsToString d.device_object)].foldl hashCombine 0

/-- Embeds `get_device_info` (`src/src/backend/webhid/mod.rs:104-137`): validity
check, cast to `HidDevice`, then name/product/vendor ids, first collection
(error if the collections array is empty), and its usage page and usage id
(error if either is unavailable). -/
def getDeviceInfo (jsHidDevice : JsValue) : Except HidError DeviceInfo := do
  let _ ← isValidObject jsHidDevice
  let device ← castHidDevice jsHidDevice
  let name := device.productName
  let productId := device.productId
  let vendorId := device.vendorId
  match device.collections.head? with
  | none => .error (HidError.custom "Invalid device descriptor, collections are empty.")
  | some collection =>
    match collection.usagePage with
    | none => .error (HidError.custom "Invalid device descriptor, usage page unavailable.")
    | some usagePage =>
      match collection.usage with
      | none => .error (HidError.custom "Invalid device descriptor, usage id unavailable.")
      | some usageId =>
        .ok { name := name, vendor_id := vendorId, product_id := productId,
              usage_page := usagePage, usage_id := usageId,
              device_object := jsHidDevice }

/-- The devices an enumeration phase yields from a JS device array:
`filter_map` keeping the `Ok` results of `get_device_info`
(`src/src/backend/webhid/mod.rs:43-49`, `55-61`, `93-99`). -/
def describables (devices : List JsValue) : List DeviceInfo :=
  devices.filterMap fun v => (getDeviceInfo v).toOption

/-- The merge loop of `enumerate` (`src/src/backend/webhid/mod.rs:64-68`):
each existing device is appended to the found list unless already present. -/
def mergeDevices (found existing : List DeviceInfo) : List DeviceInfo :=
  existing.foldl (fun acc item => if acc.contains item then acc else acc ++ [item]) found

/-- Embeds `enumerate` (`src/src/backend/webhid/mod.rs:30-71`) after the platform
returned the two raw device arrays (`request_device` with an empty filter
list, then `get_devices`): describe each array, then merge with
deduplication. -/
def enumerate (foundJs existingJs : List JsValue) : List DeviceInfo :=
  mergeDevices (describables foundJs) (describables existingJs)

/-- A JavaScript `DataView` as the input-report event carries one: the
underlying `ArrayBuffer` bytes, the view `byteOffset` into that buffer,
and the view `byteLength`. -/
structure DataView where
  buffer : List Nat
  off : Nat
  len : Nat
deriving DecidableEq

/-- Embeds `DataView.prototype.getUint8(j)`: the offset `j` is relative to the start of the view;
out of range throws a `RangeError` (modelled as `none`), which traps the wasm
module when reached through `web_sys::DataView::get_uint8`. -/
def DataView.getUint8 (v : DataView) (j : Nat) : Option Nat :=
  if j < v.len then some (v.buffer.getD (v.off + j) 0) else none

/-- Byte `i` of the view, i.e. byte `i` of the report payload the event
carries. -/
def DataView.viewByte (v : DataView) (i : Nat) : Nat := v.buffer.getD (v.off + i) 0

/-- Embeds `web_sys::HidInputReportEvent`: `report_id()` and `data()`. -/
structure HidInputReportEvent where
  reportId : Nat
  data : DataView
deriving DecidableEq

/-- The copy loop of `read_input_report`
(`src/src/backend/webhid/mod.rs:259-264`): for each loop index
`i = start, start+1, ...` (`count` iterations left) it stores
`data_view.get_uint8(i + report_offset)` into `report_buffer[i]`, i.e. into
byte `1 + i` of the caller buffer. Returns the buffer as written so far and
whether a `RangeError` trapped the loop. -/
def copyLoop (v : DataView) (buf : List Nat) (start : Nat) : Nat → List Nat × Bool
  | 0 => (buf, false)
  | count + 1 =>
    match v.getUint8 (start + v.off) with
    | none => (buf, true)
    | some b => copyLoop v (buf.set (1 + start) b) (start + 1) count

/-- Embeds `BackendDeviceReader::read_input_report`
(`src/src/backend/webhid/mod.rs:236-269`). The unbounded input channel is
the list of queued events; `recv` on an exhausted channel is the
channel-closed case (an open empty channel would suspend, never returning).
Returns the outcome of the call, the destination buffer after the call, and the
remaining channel. -/
def readInputReport (buf : List Nat) (channel : List HidInputReportEvent) :
    Outcome Nat × List Nat × List HidInputReportEvent :=
  if buf.isEmpty then (.err HidError.zeroSizedData, buf, channel)
  else
    match channel with
    | [] => (.err HidError.channelClosed, buf, [])
    | e :: rest =>
      let buf1 := buf.set 0 e.reportId
      let reportCount := e.data.len
      if reportCount = 0 then (.ok 1, buf1, rest)
      else if reportCount > buf.length - 1 then (.err HidError.bufferOverflow, buf1, rest)
      else
        match copyLoop e.data buf1 0 reportCount with
        | (buf2, true) => (.panic, buf2, rest)
        | (buf2, false) => (.ok (1 + reportCount), buf2, rest)

/-- Embeds `BackendDeviceWriter::write_output_report`
(`src/src/backend/webhid/mod.rs:281-293`): reject an empty buffer, cast the
shared device object, then submit `send_report(buf[0], buf[1..])`. Returns
the outcome and the list of reports actually submitted to the platform
(empty when no platform I/O happened; the platform acknowledgement is
modelled as success). -/
def writeOutputReport (device : JsValue) (buf : List Nat) :
    Outcome Unit × List (Nat × List Nat) :=
  if buf.isEmpty then (.err HidError.zeroSizedData, [])
  else
    match castHidDevice device with
    | .error e => (.err e, [])
    | .ok _ => (.ok (), [(buf.headD 0, buf.tail)])

/-- Native platform calls the open path performs, in order
(`src/src/backend/webhid/mod.rs:144-150` and `172-178`): conditional
`close()`, `set_oninputreport` (the read-closure bridge), then `open()`. -/
inductive PlatformCall where
  | closeDevice
  | setOnInputReport
  | openDevice
deriving DecidableEq

/-- Effect of one platform call on the number of live, independently-closable
native opens of the device. -/
def applyCall (live : Nat) : PlatformCall → Nat
  | .closeDevice => live - 1
  | .setOnInputReport => live
  | .openDevice => live + 1

/-- Live-open counts observed before, between and after a call sequence. -/
def statesAlong (live : Nat) (calls : List PlatformCall) : List Nat :=
  calls.scanl applyCall live

/-- Call sequence of `open_readonly` (`src/src/backend/webhid/mod.rs:139-165`)
once the device object validated and cast: close if the platform reports the
device open, attach the input-report bridge, open. -/
def openReadonlyCalls (opened : Bool) : List PlatformCall :=
  (if opened then [.closeDevice] else []) ++ [.setOnInputReport, .openDevice]

/-- Call sequence of `open` (`src/src/backend/webhid/mod.rs:167-198`); the
source is line-for-line the same as `open_readonly` up to the handle
construction. -/
def openCalls (opened : Bool) : List PlatformCall :=
  (if opened then [.closeDevice] else []) ++ [.setOnInputReport, .openDevice]

/-- What `open` hands back (`src/src/backend/webhid/mod.rs:180-197`): one
`Arc<BackendDevice>` allocation (`alloc` is its identity), cloned into the
reader and moved into the writer, so the strong count is 2. -/
structure OpenResult where
  calls : List PlatformCall
  readerDevice : Nat
  writerDevice : Nat
  refs : Nat
deriving DecidableEq

/-- Embeds `open` (`src/src/backend/webhid/mod.rs:167-198`): perform the platform
calls, allocate one shared `BackendDevice` (identity `alloc`), and hand a
reference to it to the reader and to the writer. -/
def webhidOpen (opened : Bool) (alloc : Nat) : OpenResult :=
  { calls := openCalls opened
    readerDevice := alloc
    writerDevice := alloc
    refs := 2 }

/-- Reference-count state of one `Arc<BackendDevice>` together with how many
times `BackendDevice::drop` has run its native `close()`
(`src/src/backend/webhid/mod.rs:205-218`). -/
structure DeviceState where
  refs : Nat
  closeCalls : Nat
deriving DecidableEq

/-- Dropping one handle that owns a reference to the shared `BackendDevice`:
the `Arc` drop decrements the strong count, and when the last reference goes
the `BackendDevice::drop` destructor runs, performing exactly one native
`close()` (`src/src/backend/webhid/mod.rs:205-218`). -/
def dropHandle (s : DeviceState) : DeviceState :=
  if s.refs = 1 then { refs := 0, closeCalls := s.closeCalls + 1 }
  else { refs := s.refs - 1, closeCalls := s.closeCalls }

/-- Effect of `Drop for DeviceReader` on the shared device state: detaches the
input-report bridge (`set_oninputreport(None)`,
`src/src/backend/webhid/mod.rs:226-233`) — no effect on the count — then
drops its `Arc` reference. -/
def dropReader (s : DeviceState) : DeviceState := dropHandle s

/-- Effect of `Drop for DeviceWriter` on the shared device state: drops its
`Arc` reference. -/
def dropWriter (s : DeviceState) : DeviceState := dropHandle s

/-- Embeds `DeviceCriteria` (`src/src/lib.rs:161-168`), wasm variant: four optional
filter fields. -/
structure DeviceCriteria where
  vendor_id : Option Nat
  product_id : Option Nat
  usage_page : Option Nat
  usage_id : Option Nat
deriving DecidableEq

/-- Embeds `HidDeviceRequest` (`src/src/backend/webhid/mod.rs:18-28`), the WebHID
filter record serialized for `request_device`. -/
structure HidDeviceRequest where
  vendorId : Option Nat
  productId : Option Nat
  usagePage : Option Nat
  usageId : Option Nat
deriving DecidableEq

/-- The field-for-field conversion in `enumerate_with_criteria`
(`src/src/backend/webhid/mod.rs:76-84`). -/
def toHidDeviceRequest (c : DeviceCriteria) : HidDeviceRequest :=
  { vendorId := c.vendor_id, productId := c.product_id,
    usagePage := c.usage_page, usageId := c.usage_id }

/-- A present filter field must equal the corresponding device field; an absent field
always matches. -/
def optMatches (f : Option Nat) (x : Nat) : Bool :=
  match f with
  | none => true
  | some v => v == x

/-- Modelled from the spec: the matching a single WebHID filter performs
inside the browser `request_device` (that code is not part of this
repository, and the native backends carrying their own matching — winrt,
hidraw, iohidmanager — are not under `src/`). Per the spec, a device matches
one filter record iff every present field equals the corresponding device
field. -/
def requestMatches (r : HidDeviceRequest) (d : DeviceInfo) : Bool :=
  optMatches r.vendorId d.vendor_id && optMatches r.productId d.product_id
    && optMatches r.usagePage d.usage_page && optMatches r.usageId d.usage_id

/-- Modelled from the spec: a device is kept iff it matches at least one
filter of the submitted list (logical OR across the list). -/
def requestAnyMatches (rs : List HidDeviceRequest) (d : DeviceInfo) : Bool :=
  rs.any fun r => requestMatches r d

/-- Embeds `enumerate_with_criteria` (`src/src/backend/webhid/mod.rs:73-102`): the
criteria are converted to `HidDeviceRequest`s and submitted to the platform,
which returns the matching devices; each is described by `get_device_info`,
failures being skipped. The platform filtering is spec-modelled
(`requestAnyMatches`) over the described records. -/
def enumerateWithCriteria (deviceCriteria : List DeviceCriteria) (devices : List JsValue) :
    List DeviceInfo :=
  (describables devices).filter
    (requestAnyMatches (deviceCriteria.map toHidDeviceRequest))

/-- Embeds `open_readonly` in the android backend
(`src/src/backend/android/mod.rs:25-27`): `todo!()`, an unconditional
panic. -/
def androidOpenReadonly (_deviceInfo : DeviceInfo) : Outcome Unit := .panic

/-- Embeds `open` in the android backend (`src/src/backend/android/mod.rs:29-31`):
`todo!()`, an unconditional panic. -/
def androidOpen (_deviceInfo : DeviceInfo) : Outcome Unit := .panic

/-- Embeds `BackendDeviceReader::read_input_report` in the android backend
(`src/src/backend/android/mod.rs:38-40`): `todo!()`. -/
def androidReadInputReport (_buffer : List Nat) : Outcome Nat := .panic

/-- Embeds `BackendDeviceWriter::write_output_report` of the android backend
(`src/src/backend/android/mod.rs:48-50`): `todo!()`. -/
def androidWriteOutputReport (_buffer : List Nat) : Outcome Unit := .panic

/-! ### Helper lemmas -/

theorem getD_set_ne (l : List Nat) (a : Nat) {m n : Nat} (h : m ≠ n) :
    (l.set m a).getD n 0 = l.getD n 0 := by
  rw [List.getD_eq_getD_get?, List.getD_eq_getD_get?]
  simp only [List.get?_eq_getElem?, List.getElem?_set_ne h]

theorem getD_set_self (l : List Nat) (a : Nat) {n : Nat} (h : n < l.length) :
    (l.set n a).getD n 0 = a := by
  rw [List.getD_eq_getD_get?]
  simp only [List.get?_eq_getElem?, List.getElem?_set_eq_of_lt a h, Option.getD_some]

theorem copyLoop_length (k : Nat) : ∀ (v : DataView) (buf : List Nat) (i : Nat),
    ((copyLoop v buf i k).1).length = buf.length := by
  induction k with
  | zero => intro v buf i; rfl
  | succ k ih =>
    intro v buf i
    simp only [copyLoop]
    cases h : v.getUint8 (i + v.off) with
    | none => rfl
    | some b => simpa using ih v (buf.set (1 + i) b) (i + 1)

theorem copyLoop_frame (k : Nat) : ∀ (v : DataView) (buf : List Nat) (i j : Nat),
    (j < 1 + i ∨ 1 + i + k ≤ j) →
    ((copyLoop v buf i k).1).getD j 0 = buf.getD j 0 := by
  induction k with
  | zero => intro v buf i j _; rfl
  | succ k ih =>
    intro v buf i j hj
    simp only [copyLoop]
    cases h : v.getUint8 (i + v.off) with
    | none => rfl
    | some b =>
      have hj' : j < 1 + (i + 1) ∨ 1 + (i + 1) + k ≤ j := by omega
      have hne : 1 + i ≠ j := by omega
      rw [ih v (buf.set (1 + i) b) (i + 1) j hj', getD_set_ne buf b hne]

theorem copyLoop_notrap (k : Nat) : ∀ (v : DataView) (buf : List Nat) (i : Nat),
    (copyLoop v buf i k).2 = false → ∀ j, j < k → i + j + v.off < v.len := by
  induction k with
  | zero => intro v buf i _ j hj; omega
  | succ k ih =>
    intro v buf i hok j hj
    simp only [copyLoop] at hok
    cases h : v.getUint8 (i + v.off) with
    | none => rw [h] at hok; simp at hok
    | some b =>
      rw [h] at hok
      have hin : i + v.off < v.len := by
        by_contra hcon
        simp [DataView.getUint8, hcon] at h
      rcases Nat.eq_zero_or_pos j with hj0 | hjpos
      · omega
      · have := ih v (buf.set (1 + i) b) (i + 1) hok (j - 1) (by omega)
        omega

theorem copyLoop_content (k : Nat) : ∀ (v : DataView) (buf : List Nat) (i : Nat),
    (copyLoop v buf i k).2 = false → ∀ j, j < k → 1 + i + j < buf.length →
    ((copyLoop v buf i k).1).getD (1 + i + j) 0
      = v.buffer.getD (v.off + (i + j + v.off)) 0 := by
  induction k with
  | zero => intro v buf i _ j hj; omega
  | succ k ih =>
    intro v buf i hok j hj hlen
    cases h : v.getUint8 (i + v.off) with
    | none => simp only [copyLoop, h] at hok; exact absurd hok (by simp)
    | some b =>
      simp only [copyLoop, h] at hok ⊢
      have hb : b = v.buffer.getD (v.off + (i + v.off)) 0 := by
        have h' := h
        unfold DataView.getUint8 at h'
        by_cases hin : i + v.off < v.len
        · rw [if_pos hin] at h'
          exact (Option.some.inj h').symm
        · rw [if_neg hin] at h'
          exact absurd h' (by simp)
      rcases Nat.eq_zero_or_pos j with hj0 | hjpos
      · subst hj0
        simp only [Nat.add_zero]
        have hfr := copyLoop_frame k v (buf.set (1 + i) b) (i + 1) (1 + i) (by omega)
        rw [hfr, getD_set_self buf b (by omega)]
        exact hb
      · have hrec := ih v (buf.set (1 + i) b) (i + 1) hok (j - 1)
          (by omega) (by rw [List.length_set]; omega)
        have harith : 1 + (i + 1) + (j - 1) = 1 + i + j := by omega
        have harith2 : i + 1 + (j - 1) + v.off = i + j + v.off := by omega
        rw [harith, harith2] at hrec
        exact hrec

/-- When the view offset is zero every loop index stays in range, so the copy
loop cannot trap. -/
theorem copyLoop_off_zero_notrap (k : Nat) : ∀ (v : DataView) (buf : List Nat) (i : Nat),
    v.off = 0 → i + k ≤ v.len → (copyLoop v buf i k).2 = false := by
  induction k with
  | zero => intro v buf i _ _; rfl
  | succ k ih =>
    intro v buf i hoff hle
    have hin : i + v.off < v.len := by omega
    have h : v.getUint8 (i + v.off) = some (v.buffer.getD (v.off + (i + v.off)) 0) := by
      unfold DataView.getUint8
      rw [if_pos hin]
    simp only [copyLoop, h]
    exact ih v _ (i + 1) hoff (by omega)

/-- Branch normal form of `readInputReport` on a non-exhausted channel. -/
theorem readInputReport_eq (buf : List Nat) (e : HidInputReportEvent)
    (rest : List HidInputReportEvent) :
    readInputReport buf (e :: rest) =
      if buf.isEmpty then (.err HidError.zeroSizedData, buf, e :: rest)
      else if e.data.len = 0 then (.ok 1, buf.set 0 e.reportId, rest)
      else if e.data.len > buf.length - 1 then
        (.err HidError.bufferOverflow, buf.set 0 e.reportId, rest)
      else
        match copyLoop e.data (buf.set 0 e.reportId) 0 e.data.len with
        | (buf2, true) => (.panic, buf2, rest)
        | (buf2, false) => (.ok (1 + e.data.len), buf2, rest) := rfl

theorem except_toOption_ok {α : Type} (x : Except HidError α) (r : α) :
    x.toOption = some r ↔ x = .ok r := by
  cases x <;> simp [Except.toOption]

theorem mem_describables (devices : List JsValue) (r : DeviceInfo) :
    r ∈ describables devices ↔ ∃ v ∈ devices, getDeviceInfo v = .ok r := by
  simp [describables, List.mem_filterMap, except_toOption_ok]

theorem mem_mergeDevices (existing : List DeviceInfo) : ∀ (found : List DeviceInfo)
    (r : DeviceInfo), r ∈ mergeDevices found existing ↔ r ∈ found ∨ r ∈ existing := by
  induction existing with
  | nil => intro found r; simp [mergeDevices]
  | cons x xs ih =>
    intro found r
    simp only [mergeDevices, List.foldl_cons]
    by_cases hc : found.contains x
    · rw [if_pos hc]
      have hx : x ∈ found := by
        rw [List.contains_iff_exists_mem_beq] at hc
        obtain ⟨a, ha, hbeq⟩ := hc
        rwa [show x = a from by simpa using hbeq]
      rw [show List.foldl (fun acc item => if acc.contains item then acc else acc ++ [item])
            found xs = mergeDevices found xs from rfl, ih found r]
      constructor
      · rintro (h | h)
        · exact Or.inl h
        · exact Or.inr (List.mem_cons_of_mem x h)
      · rintro (h | h)
        · exact Or.inl h
        · rcases List.mem_cons.mp h with h | h
          · subst h; exact Or.inl hx
          · exact Or.inr h
    · rw [if_neg hc]
      rw [show List.foldl (fun acc item => if acc.contains item then acc else acc ++ [item])
            (found ++ [x]) xs = mergeDevices (found ++ [x]) xs from rfl, ih (found ++ [x]) r]
      simp only [List.mem_append, List.mem_singleton, List.mem_cons]
      tauto

theorem optMatches_iff (f : Option Nat) (x : Nat) :
    optMatches f x = true ↔ ∀ v, f = some v → x = v := by
  cases f with
  | none => simp [optMatches]
  | some v =>
    simp only [optMatches, beq_iff_eq, Option.some.injEq]
    constructor
    · intro h w hw
      subst hw
      exact h.symm
    · intro h
      exact (h v rfl).symm

/-- The property the spec states one criteria element to test: every present
field of the element equals the corresponding field of the device. -/
def criteriaMatchesProp (c : DeviceCriteria) (d : DeviceInfo) : Prop :=
  (∀ v, c.vendor_id = some v → d.vendor_id = v)
    ∧ (∀ v, c.product_id = some v → d.product_id = v)
    ∧ (∀ v, c.usage_page = some v → d.usage_page = v)
    ∧ (∀ v, c.usage_id = some v → d.usage_id = v)

theorem requestMatches_iff (c : DeviceCriteria) (d : DeviceInfo) :
    requestMatches (toHidDeviceRequest c) d = true ↔ criteriaMatchesProp c d := by
  simp only [requestMatches, toHidDeviceRequest, criteriaMatchesProp,
    Bool.and_eq_true, optMatches_iff]
  tauto

/-! ### Concrete example values (the enumeration scenario of the spec) -/

/-- The raw `HidDevice` of the enumeration scenario in the spec. -/
def exDev : JsHidDevice :=
  { ref := 0, productName := "Pad", productId := 0xC52B, vendorId := 0x46D,
    collections := [{ usagePage := some 1, usage := some 5 }] }

/-- The scenario device as a JS value. -/
def exDevice : JsValue := .hidDevice exDev

/-- The record `get_device_info` yields for the scenario device. -/
def exInfo : DeviceInfo :=
  { name := "Pad", vendor_id := 0x46D, product_id := 0xC52B, usage_page := 1,
    usage_id := 5, device_object := exDevice }

/-- An input-report event with id 7 and payload `[9, 9]`. -/
def exEvent : HidInputReportEvent :=
  { reportId := 7, data := { buffer := [9, 9], off := 0, len := 2 } }

/-- An input-report event with id 7 and a payload of length 10. -/
def exBigEvent : HidInputReportEvent :=
  { reportId := 7, data := { buffer := List.replicate 10 9, off := 0, len := 10 } }

/-! ### Claim theorems -/

/-- Claim C1: a successful `open` hands back a reader and a writer that
reference one and the same `BackendDevice` allocation with strong count 2,
and dropping both handles, in either order, runs the native close exactly
once (and dropping only one of them runs it zero times). -/
theorem claim_C1 (opened : Bool) (alloc : Nat) :
    (webhidOpen opened alloc).readerDevice = (webhidOpen opened alloc).writerDevice
      ∧ (webhidOpen opened alloc).refs = 2
      ∧ dropWriter (dropReader { refs := (webhidOpen opened alloc).refs, closeCalls := 0 })
          = { refs := 0, closeCalls := 1 }
      ∧ dropReader (dropWriter { refs := (webhidOpen opened alloc).refs, closeCalls := 0 })
          = { refs := 0, closeCalls := 1 }
      ∧ (dropReader { refs := (webhidOpen opened alloc).refs, closeCalls := 0 }).closeCalls = 0
      ∧ (dropWriter { refs := (webhidOpen opened alloc).refs, closeCalls := 0 }).closeCalls = 0 :=
  ⟨rfl, rfl, rfl, rfl, rfl, rfl⟩

/-- Claim C3: a zero-length buffer makes `read_input_report` and
`write_output_report` fail with the `ZeroSizedBuffer` error before any
platform call: the input channel is left untouched by the read and the write
submits nothing. -/
theorem claim_C3 (channel : List HidInputReportEvent) (device : JsValue) :
    readInputReport [] channel = (.err HidError.zeroSizedData, [], channel)
      ∧ writeOutputReport device [] = (.err HidError.zeroSizedData, []) :=
  ⟨rfl, rfl⟩

/-- Claim C4: an incoming report with a non-empty payload longer than the
destination capacity minus the report-id byte makes `read_input_report` fail
with the `BufferOverflow` error instead of truncating: no payload byte is
stored. -/
theorem claim_C4 (buf : List Nat) (e : HidInputReportEvent)
    (rest : List HidInputReportEvent) (hne : buf ≠ [])
    (hnz : e.data.len ≠ 0) (hover : e.data.len > buf.length - 1) :
    readInputReport buf (e :: rest)
      = (.err HidError.bufferOverflow, buf.set 0 e.reportId, rest) := by
  rw [readInputReport_eq]
  rw [if_neg (by simp [List.isEmpty_iff, hne]), if_neg hnz, if_pos hover]

/-- Witness for C4: buffer of size 4 against a payload of length 10. -/
theorem claim_C4_witness :
    readInputReport [0, 0, 0, 0] [exBigEvent]
      = (.err HidError.bufferOverflow, [7, 0, 0, 0], []) := by
  have h := claim_C4 [0, 0, 0, 0] exBigEvent [] (by decide) (by decide) (by decide)
  exact h

/-- A record equal to `exInfo` except for the name, sharing its identity
token. -/
def exInfoRenamed : DeviceInfo :=
  { name := "Pad Mk II", vendor_id := 0x46D, product_id := 0xC52B, usage_page := 1,
    usage_id := 5, device_object := exDevice }

/-- Claim C5 counterexample: two `DeviceInfo` records with the same identity
token but different names are unequal under the derived equality, refuting
that records are equal whenever their tokens are equal. -/
theorem claim_C5_counterexample :
    exInfo.device_object = exInfoRenamed.device_object
      ∧ deviceInfoBeq exInfo exInfoRenamed = false := by
  constructor
  · rfl
  · decide

/-- Claim C5 (amended): the derived equality of `DeviceInfo` is field-wise —
two records are equal iff the name, the four 16-bit ids and the identity
token are all equal (so equality still implies token equality, but not
conversely), and the derived hash is consistent with this equality. -/
theorem claim_C5 (a b : DeviceInfo) :
    (deviceInfoBeq a b = true ↔
      (a.name = b.name ∧ a.vendor_id = b.vendor_id ∧ a.product_id = b.product_id
        ∧ a.usage_page = b.usage_page ∧ a.usage_id = b.usage_id
        ∧ a.device_object = b.device_object))
    ∧ (deviceInfoBeq a b = true → a.device_object = b.device_object)
    ∧ (deviceInfoBeq a b = true → deviceInfoHash a = deviceInfoHash b) := by
  have hiff : deviceInfoBeq a b = true ↔
      (a.name = b.name ∧ a.vendor_id = b.vendor_id ∧ a.product_id = b.product_id
        ∧ a.usage_page = b.usage_page ∧ a.usage_id = b.usage_id
        ∧ a.device_object = b.device_object) := by
    simp [deviceInfoBeq, and_assoc]
  refine ⟨hiff, fun h => (hiff.mp h).2.2.2.2.2, fun h => ?_⟩
  obtain ⟨h1, h2, h3, h4, h5, h6⟩ := hiff.mp h
  simp [deviceInfoHash, h1, h2, h3, h4, h5, h6]

/-- Witness for C5: the amended equality and hash consistency evaluated on
the scenario record. -/
theorem claim_C5_witness :
    deviceInfoBeq exInfo exInfo = true ∧ deviceInfoHash exInfo = deviceInfoHash exInfo :=
  ⟨by decide, (claim_C5 exInfo exInfo).2.2 (by decide)⟩

/-- Claim C6: opening a device the platform reports as already open performs
the native close first and the native open last, and along the whole call
sequence of both `open` and `open_readonly` the number of live,
independently-closable native opens never exceeds one, ending at exactly
one. -/
theorem claim_C6 :
    openCalls true = [.closeDevice, .setOnInputReport, .openDevice]
      ∧ openReadonlyCalls true = [.closeDevice, .setOnInputReport, .openDevice]
      ∧ (statesAlong 1 (openCalls true)).all (· ≤ 1) = true
      ∧ (statesAlong 1 (openReadonlyCalls true)).all (· ≤ 1) = true
      ∧ (statesAlong 1 (openCalls true)).getLast? = some 1
      ∧ (statesAlong 1 (openReadonlyCalls true)).getLast? = some 1
      ∧ (statesAlong 0 (openCalls false)).all (· ≤ 1) = true
      ∧ (statesAlong 0 (openCalls false)).getLast? = some 1 := by
  decide

/-- Claim C2: every successful read stores the report id in byte 0, the
payload bytes in original order at positions `1..1+payload_len`, and returns
`1 + payload_len` (so a zero-length payload returns exactly 1, forced by the
first conjunct); and every write submits byte 0 as the report id and the
remaining bytes as the payload, a one-byte buffer (empty payload) being
accepted. -/
theorem claim_C2 (buf : List Nat) (e : HidInputReportEvent) (rest : List HidInputReportEvent)
    (n : Nat) (buf' : List Nat) (ch' : List HidInputReportEvent)
    (device : JsValue) (d : JsHidDevice) (wbuf : List Nat) :
    (readInputReport buf (e :: rest) = (.ok n, buf', ch') →
      n = 1 + e.data.len
        ∧ buf'.getD 0 0 = e.reportId
        ∧ (∀ i, i < e.data.len → buf'.getD (1 + i) 0 = e.data.viewByte i))
    ∧ (castHidDevice device = .ok d → wbuf ≠ [] →
        writeOutputReport device wbuf = (.ok (), [(wbuf.headD 0, wbuf.tail)])) := by
  constructor
  · intro h
    rw [readInputReport_eq] at h
    by_cases hE : buf.isEmpty
    · rw [if_pos hE] at h
      simp at h
    · rw [if_neg hE] at h
      have hlen : 0 < buf.length := by
        cases buf with
        | nil => simp at hE
        | cons x xs => simp
      by_cases hrc : e.data.len = 0
      · rw [if_pos hrc] at h
        simp only [Prod.mk.injEq] at h
        obtain ⟨hn, hbuf, _⟩ := h
        have hn' : n = 1 := by
          cases hn
          rfl
        refine ⟨by omega, ?_, ?_⟩
        · rw [← hbuf, getD_set_self buf e.reportId hlen]
        · intro i hi
          omega
      · rw [if_neg hrc] at h
        by_cases hover : e.data.len > buf.length - 1
        · rw [if_pos hover] at h
          simp at h
        · rw [if_neg hover] at h
          cases hcl : copyLoop e.data (buf.set 0 e.reportId) 0 e.data.len with
          | mk buf2 trapped =>
            rw [hcl] at h
            cases trapped with
            | true => simp at h
            | false =>
              simp only [Prod.mk.injEq] at h
              obtain ⟨hn, hbuf, _⟩ := h
              have hn' : n = 1 + e.data.len := by
                cases hn
                rfl
              have hfst : (copyLoop e.data (buf.set 0 e.reportId) 0 e.data.len).1 = buf2 := by
                rw [hcl]
              have hsnd : (copyLoop e.data (buf.set 0 e.reportId) 0 e.data.len).2 = false := by
                rw [hcl]
              have hoff : e.data.off = 0 := by
                have hin := copyLoop_notrap e.data.len e.data (buf.set 0 e.reportId) 0 hsnd
                  (e.data.len - 1) (by omega)
                omega
              refine ⟨hn', ?_, ?_⟩
              · have hfr := copyLoop_frame e.data.len e.data (buf.set 0 e.reportId) 0 0
                  (by omega)
                rw [← hbuf, ← hfst, hfr, getD_set_self buf e.reportId hlen]
              · intro i hi
                have hib : 1 + 0 + i < (buf.set 0 e.reportId).length := by
                  rw [List.length_set]
                  omega
                have hct := copyLoop_content e.data.len e.data (buf.set 0 e.reportId) 0 hsnd
                  i hi hib
                rw [hfst] at hct
                have hidx : e.data.off + (0 + i + e.data.off) = i := by omega
                rw [hidx] at hct
                rw [← hbuf]
                have h1i : 1 + 0 + i = 1 + i := by omega
                rw [h1i] at hct
                rw [hct, DataView.viewByte, hoff, Nat.zero_add]
  · intro hcast hw
    unfold writeOutputReport
    rw [if_neg (by simp [List.isEmpty_iff, hw]), hcast]

/-- Witness for C2: the scenario read (buffer of size 4, report id 7,
payload `[9, 9]`, result 3 and buffer `[7, 9, 9, 0]`) and a one-byte write. -/
theorem claim_C2_witness :
    (3 : Nat) = 1 + exEvent.data.len
      ∧ ([7, 9, 9, 0] : List Nat).getD 0 0 = exEvent.reportId
      ∧ ([7, 9, 9, 0] : List Nat).getD 1 0 = exEvent.data.viewByte 0
      ∧ writeOutputReport exDevice [7] = (.ok (), [(7, [])]) := by
  have H := claim_C2 [0, 0, 0, 0] exEvent [] 3 [7, 9, 9, 0] [] exDevice exDev [7]
  have hr := H.1 (by decide)
  have hw := H.2 rfl (by decide)
  exact ⟨hr.1, hr.2.1, hr.2.2 0 (by decide), hw⟩

/-- Claim C7: enumeration (both the `request_device` and the `get_devices`
phase, merged with deduplication) is total and yields exactly the records of
the devices `get_device_info` can describe; appending a device whose metadata
cannot be retrieved to either raw array leaves the enumeration unchanged, so
a malformed device never aborts the scan. -/
theorem claim_C7 (foundJs existingJs : List JsValue) (r : DeviceInfo) :
    (r ∈ enumerate foundJs existingJs ↔
      ∃ v ∈ foundJs ++ existingJs, getDeviceInfo v = .ok r)
    ∧ (∀ (bad : JsValue) (e : HidError), getDeviceInfo bad = .error e →
        enumerate (foundJs ++ [bad]) existingJs = enumerate foundJs existingJs
          ∧ enumerate foundJs (existingJs ++ [bad]) = enumerate foundJs existingJs) := by
  constructor
  · rw [enumerate, mem_mergeDevices]
    rw [mem_describables, mem_describables]
    constructor
    · rintro (⟨v, hv, hok⟩ | ⟨v, hv, hok⟩)
      · exact ⟨v, List.mem_append_left _ hv, hok⟩
      · exact ⟨v, List.mem_append_right _ hv, hok⟩
    · rintro ⟨v, hv, hok⟩
      rcases List.mem_append.mp hv with hv | hv
      · exact Or.inl ⟨v, hv, hok⟩
      · exact Or.inr ⟨v, hv, hok⟩
  · intro bad e hbad
    have hdesc : describables [bad] = [] := by
      simp [describables, hbad, Except.toOption]
    have h1 : describables (foundJs ++ [bad]) = describables foundJs := by
      rw [describables, List.filterMap_append]
      rw [show List.filterMap (fun v => (getDeviceInfo v).toOption) [bad] = describables [bad]
            from rfl, hdesc, List.append_nil]
      rfl
    have h2 : describables (existingJs ++ [bad]) = describables existingJs := by
      rw [describables, List.filterMap_append]
      rw [show List.filterMap (fun v => (getDeviceInfo v).toOption) [bad] = describables [bad]
            from rfl, hdesc, List.append_nil]
      rfl
    constructor
    · rw [enumerate, enumerate, h1]
    · rw [enumerate, enumerate, h2]

/-- Witness for C7: the scenario device is enumerated, and appending a null
device (whose metadata retrieval fails) changes nothing. -/
theorem claim_C7_witness :
    exInfo ∈ enumerate [exDevice] []
      ∧ enumerate ([exDevice] ++ [JsValue.null]) [] = enumerate [exDevice] [] := by
  have H := claim_C7 [exDevice] [] exInfo
  refine ⟨H.1.mpr ⟨exDevice, by simp, rfl⟩, ?_⟩
  exact (H.2 JsValue.null (HidError.custom "JavaScript object is null.") rfl).1

/-- Claim C8: a describable device is enumerated by
`enumerate_with_criteria` iff it matches at least one criteria element, and
it matches an element iff every present field of that element equals the
corresponding device field, absent fields always matching (the platform-side
filter is spec-modelled; the field-for-field conversion of `DeviceCriteria`
to the submitted filter is from the source). -/
theorem claim_C8 (deviceCriteria : List DeviceCriteria) (devices : List JsValue)
    (d : DeviceInfo) :
    (d ∈ enumerateWithCriteria deviceCriteria devices ↔
      ((∃ v ∈ devices, getDeviceInfo v = .ok d)
        ∧ ∃ c ∈ deviceCriteria, criteriaMatchesProp c d))
    ∧ ∀ c, (requestMatches (toHidDeviceRequest c) d = true ↔ criteriaMatchesProp c d) := by
  constructor
  · rw [enumerateWithCriteria, List.mem_filter, mem_describables]
    refine and_congr Iff.rfl ?_
    rw [requestAnyMatches, List.any_eq_true]
    constructor
    · rintro ⟨r, hr, hm⟩
      rcases List.mem_map.mp hr with ⟨c, hc, rfl⟩
      exact ⟨c, hc, (requestMatches_iff c d).mp hm⟩
    · rintro ⟨c, hc, hm⟩
      exact ⟨toHidDeviceRequest c, List.mem_map.mpr ⟨c, hc, rfl⟩,
        (requestMatches_iff c d).mpr hm⟩
  · intro c
    exact requestMatches_iff c d

/-- Witness for C8: the scenario — criteria `[{vendor_id = some 0x46D}]`
include the scenario device, criteria `[{vendor_id = some 1}]` exclude it. -/
theorem claim_C8_witness :
    exInfo ∈ enumerateWithCriteria
        [{ vendor_id := some 0x46D, product_id := none, usage_page := none, usage_id := none }]
        [exDevice]
      ∧ enumerateWithCriteria
        [{ vendor_id := some 1, product_id := none, usage_page := none, usage_id := none }]
        [exDevice] = [] := by
  constructor
  · refine (claim_C8 _ [exDevice] exInfo).1.mpr
      ⟨⟨exDevice, by simp, rfl⟩, ⟨_, List.mem_singleton_self _, ?_⟩⟩
    refine ⟨?_, ?_, ?_, ?_⟩
    · intro v hv
      cases hv
      rfl
    · intro v hv
      exact Option.noConfusion hv
    · intro v hv
      exact Option.noConfusion hv
    · intro v hv
      exact Option.noConfusion hv
  · decide

/-- Claim C9 counterexample: `open_readonly` in the android backend panics
(`todo!()`) on every input instead of returning a success value or a typed
error. -/
theorem claim_C9_counterexample : androidOpenReadonly exInfo = Outcome.panic := rfl

/-- Claim C9 (amended): the webhid operations return a success value or a
typed error and never panic — for reads under the proviso that every queued
event carries a view with byte offset zero — while the four android backend
operations are unimplemented (`todo!()`) and panic on every input. -/
theorem claim_C9 (buf : List Nat) (channel : List HidInputReportEvent)
    (device : JsValue) (wbuf : List Nat) (deviceInfo : DeviceInfo)
    (hoff : ∀ ev ∈ channel, ev.data.off = 0) :
    (readInputReport buf channel).1 ≠ Outcome.panic
      ∧ (writeOutputReport device wbuf).1 ≠ Outcome.panic
      ∧ androidOpenReadonly deviceInfo = Outcome.panic
      ∧ androidOpen deviceInfo = Outcome.panic
      ∧ androidReadInputReport buf = Outcome.panic
      ∧ androidWriteOutputReport wbuf = Outcome.panic := by
  refine ⟨?_, ?_, rfl, rfl, rfl, rfl⟩
  · cases channel with
    | nil =>
      by_cases hE : buf.isEmpty
      · simp [readInputReport, hE]
      · simp [readInputReport, hE]
    | cons e rest =>
      rw [readInputReport_eq]
      by_cases hE : buf.isEmpty
      · rw [if_pos hE]
        simp
      · rw [if_neg hE]
        by_cases hrc : e.data.len = 0
        · rw [if_pos hrc]
          simp
        · rw [if_neg hrc]
          by_cases hover : e.data.len > buf.length - 1
          · rw [if_pos hover]
            simp
          · rw [if_neg hover]
            have hoffe : e.data.off = 0 := hoff e (List.mem_cons_self e rest)
            have hnt := copyLoop_off_zero_notrap e.data.len e.data (buf.set 0 e.reportId) 0
              hoffe (by omega)
            cases hcl : copyLoop e.data (buf.set 0 e.reportId) 0 e.data.len with
            | mk buf2 trapped =>
              rw [hcl] at hnt
              cases trapped with
              | true => simp at hnt
              | false => simp
  · unfold writeOutputReport
    by_cases hE : wbuf.isEmpty
    · rw [if_pos hE]
      simp
    · rw [if_neg hE]
      cases hc : castHidDevice device <;> simp

/-- Witness for C9: a read from a well-formed queued event does not panic,
while the android `open` panics. -/
theorem claim_C9_witness :
    (readInputReport [0, 0, 0, 0] [exEvent]).1 ≠ Outcome.panic
      ∧ androidOpen exInfo = Outcome.panic := by
  have H := claim_C9 [0, 0, 0, 0] [exEvent] exDevice [7] exInfo (by decide)
  exact ⟨H.1, H.2.2.2.1⟩

/-- Claim C10: a read modifies at most the first `1 + payload_len` bytes of
the destination — the length is preserved and every byte at an index of at
least `1 + payload_len` is unchanged — and a read failing because the
payload exceeds the remaining capacity has stored exactly byte 0 (set to the
report id), every byte at index 1 or above being unchanged. -/
theorem claim_C10 (buf : List Nat) (e : HidInputReportEvent)
    (rest : List HidInputReportEvent) (o : Outcome Nat) (buf' : List Nat)
    (ch' : List HidInputReportEvent)
    (h : readInputReport buf (e :: rest) = (o, buf', ch')) :
    buf'.length = buf.length
      ∧ (∀ j, 1 + e.data.len ≤ j → buf'.getD j 0 = buf.getD j 0)
      ∧ (buf ≠ [] → e.data.len ≠ 0 → e.data.len > buf.length - 1 →
          o = .err HidError.bufferOverflow
            ∧ buf' = buf.set 0 e.reportId
            ∧ ∀ j, 1 ≤ j → buf'.getD j 0 = buf.getD j 0) := by
  rw [readInputReport_eq] at h
  by_cases hE : buf.isEmpty
  · rw [if_pos hE] at h
    simp only [Prod.mk.injEq] at h
    obtain ⟨_, hbuf, _⟩ := h
    subst hbuf
    refine ⟨rfl, fun j _ => rfl, fun hne _ _ => ?_⟩
    exact absurd (List.isEmpty_iff.mp hE) hne
  · rw [if_neg hE] at h
    have hlen : 0 < buf.length := by
      cases buf with
      | nil => simp at hE
      | cons x xs => simp
    by_cases hrc : e.data.len = 0
    · rw [if_pos hrc] at h
      simp only [Prod.mk.injEq] at h
      obtain ⟨_, hbuf, _⟩ := h
      subst hbuf
      refine ⟨List.length_set _ _ _, fun j hj => ?_, fun _ hne _ => absurd hrc hne⟩
      exact getD_set_ne buf e.reportId (by omega)
    · rw [if_neg hrc] at h
      by_cases hover : e.data.len > buf.length - 1
      · rw [if_pos hover] at h
        simp only [Prod.mk.injEq] at h
        obtain ⟨ho, hbuf, _⟩ := h
        subst hbuf
        refine ⟨List.length_set _ _ _, fun j hj => ?_, fun _ _ _ => ⟨ho.symm, rfl, fun j hj => ?_⟩⟩
        · exact getD_set_ne buf e.reportId (by omega)
        · exact getD_set_ne buf e.reportId (by omega)
      · rw [if_neg hover] at h
        cases hcl : copyLoop e.data (buf.set 0 e.reportId) 0 e.data.len with
        | mk buf2 trapped =>
          rw [hcl] at h
          have hfst : (copyLoop e.data (buf.set 0 e.reportId) 0 e.data.len).1 = buf2 := by
            rw [hcl]
          have hbuf2 : ∀ j, 1 + e.data.len ≤ j → buf2.getD j 0 = buf.getD j 0 := by
            intro j hj
            rw [← hfst, copyLoop_frame e.data.len e.data (buf.set 0 e.reportId) 0 j
              (by omega)]
            exact getD_set_ne buf e.reportId (by omega)
          have hblen : buf2.length = buf.length := by
            rw [← hfst, copyLoop_length, List.length_set]
          cases trapped with
          | true =>
            simp only [Prod.mk.injEq] at h
            obtain ⟨_, hbuf, _⟩ := h
            subst hbuf
            exact ⟨hblen, hbuf2, fun _ _ hov => absurd hov hover⟩
          | false =>
            simp only [Prod.mk.injEq] at h
            obtain ⟨_, hbuf, _⟩ := h
            subst hbuf
            exact ⟨hblen, hbuf2, fun _ _ hov => absurd hov hover⟩

/-- Witness for C10: size-4 buffer against a 10-byte payload — the buffer
after the failed read is the original with byte 0 set to the report id, and
a byte past the payload prefix is unchanged. -/
theorem claim_C10_witness :
    ([7, 0, 0, 0] : List Nat) = ([0, 0, 0, 0] : List Nat).set 0 exBigEvent.reportId
      ∧ ([7, 0, 0, 0] : List Nat).getD 11 0 = ([0, 0, 0, 0] : List Nat).getD 11 0 := by
  have H := claim_C10 [0, 0, 0, 0] exBigEvent [] (.err HidError.bufferOverflow)
    [7, 0, 0, 0] [] (by decide)
  exact ⟨(H.2.2 (by decide) (by decide) (by decide)).2.1, H.2.1 11 (by decide)⟩

end AsyncHid
